import Mathlib

/-!
Verification of the client-side behavioral-telemetry pipeline
(`frontend/js/modules/behavior_tracker.js` and its sibling iterations).

The JavaScript source is shallowly embedded: each tracker method that the
claims touch becomes an executable Lean function over explicit state, with
`Date.now()` readings, DOM event targets and the random message index passed
in as parameters.  Machine-level JS details that the claims do not depend on
(floating point click coordinates) are modelled over `ℚ`; string lengths are
JS `.length` modelled as character counts.
-/

namespace BT

/-! ## Identity resolution and envelope construction (`logEvent`)

Source: `behavior_tracker.js`, `logEvent(eventType, eventData)`.
The injected identity provider `getParticipantId` may throw (the `catch`
ignores the error, leaving `participant_id` null); the global fallback is
`window.participantId`.  JS truthiness on the id: `null` and the empty
string are falsy. -/

/-- Outcome of the provider call `getParticipantId()`: it either throws
(caught and treated as no identity) or returns a value (possibly null or
empty). -/
inductive ProviderResult where
  | throws : ProviderResult
  | value : Option String → ProviderResult
deriving DecidableEq, Repr

/-- JS truthiness of a nullable string: `null`/absent and `""` are falsy. -/
def jsTruthy : Option String → Bool
  | none => false
  | some s => !(s = "")

/-- The wire record (`payload` in the source): built only after the identity
gate has passed. -/
structure Envelope (δ : Type) where
  participant_id : String
  event_type : String
  event_data : δ
  timestamp : String
deriving DecidableEq, Repr

/-- What a single `logEvent` call does: either drops the candidate event
(logging the given number of warnings, with nothing buffered and nothing
handed to `_sendPayload`), or constructs one envelope and hands it to the
delivery layer. -/
inductive LogOutcome (δ : Type) where
  | dropped : (warnings : Nat) → LogOutcome δ
  | sent : Envelope δ → LogOutcome δ
deriving DecidableEq, Repr

/-- The `participant_id` local of `logEvent` after the try/catch around the
provider and the `window.participantId` fallback have run: the provider's
value when truthy, else the global value when truthy, else the provider's
(falsy) value. -/
def resolveParticipantId (provider : ProviderResult) (globalPid : Option String) :
    Option String :=
  let pid0 : Option String :=
    match provider with
    | .throws => none
    | .value v => v
  if jsTruthy pid0 then pid0
  else if jsTruthy globalPid then globalPid
  else pid0

/-- `logEvent(eventType, eventData)` from the source: resolve the id from
the provider (exception ⇒ null), fall back to `window.participantId` when
the provider result is falsy, and drop the event with one warning when the
resolved id is still falsy; otherwise build the payload and send it. -/
def logEvent {δ : Type} (provider : ProviderResult) (globalPid : Option String)
    (eventType : String) (eventData : δ) (nowIso : String) : LogOutcome δ :=
  match resolveParticipantId provider globalPid with
  | none => .dropped 1
  | some s =>
      if s = "" then .dropped 1
      else .sent ⟨s, eventType, eventData, nowIso⟩

end BT

/-- C1: if neither the injected identity provider (an exception counting as
no identity) nor the global fallback yields a non-empty participant id,
`logEvent` constructs no envelope and hands nothing to the delivery layer —
the event is dropped with exactly one warning; and every envelope that is
sent carries a non-empty participant id. -/
theorem BT.c1_identity_gate {δ : Type} (provider : BT.ProviderResult)
    (globalPid : Option String) (eventType : String) (eventData : δ) (nowIso : String) :
    ((match provider with
      | .throws => (none : Option String)
      | .value v => v).elim True (fun s => s = "") →
      jsTruthy globalPid = false →
      BT.logEvent provider globalPid eventType eventData nowIso = .dropped 1) ∧
    (∀ e : BT.Envelope δ,
      BT.logEvent provider globalPid eventType eventData nowIso = .sent e →
      e.participant_id ≠ "") := by
  constructor
  · intro hprov hglob
    unfold BT.logEvent BT.resolveParticipantId
    cases provider with
    | throws =>
        simp only [BT.jsTruthy, hglob]
        simp [BT.jsTruthy] at hglob ⊢
        cases globalPid with
        | none => rfl
        | some g => simp at hglob; simp [hglob]
    | value v =>
        cases v with
        | none =>
            simp [BT.jsTruthy] at hglob ⊢
            cases globalPid with
            | none => rfl
            | some g => simp at hglob; simp [hglob]
        | some s =>
            simp [Option.elim] at hprov
            subst hprov
            simp [BT.jsTruthy] at hglob ⊢
            cases globalPid with
            | none => rfl
            | some g => simp at hglob; simp [hglob]
  · intro e hsent
    unfold BT.logEvent at hsent
    cases h : BT.resolveParticipantId provider globalPid with
    | none => rw [h] at hsent; exact absurd hsent (by simp)
    | some s =>
        rw [h] at hsent
        by_cases hs : s = ""
        · simp [hs] at hsent
        · simp [hs] at hsent
          intro hpid
          rw [← hsent] at hpid
          exact hs hpid

/-- C1 witness: a concrete call where the provider throws and the global
fallback is the empty string is dropped with one warning; and a concrete
sent envelope has a non-empty id. -/
theorem BT.c1_identity_gate_witness :
    BT.logEvent (δ := Nat) .throws (some "") "code_edit" 0 "2026-01-01T00:00:00Z" =
      .dropped 1 := by
  have h := BT.c1_identity_gate (δ := Nat) .throws (some "") "code_edit" 0 "2026-01-01T00:00:00Z"
  exact h.1 (by simp [Option.elim]) (by decide)

namespace BT

/-! ## Delivery layer (`_sendPayload`)

Two iterations of `_sendPayload` are in the source.  The one in
`unnamed/part_001` (lines 93–111) resolves the endpoint at `init` time and,
when `navigator.sendBeacon` is unavailable, issues
`fetch(url, {method:'POST', headers:{'Content-Type':'application/json'},
body, keepalive:true, credentials:'omit'})`.  The one in `unnamed/part_000`
(lines 445–465) posts to the fixed `/api/v1/behavior/log` and its fallback
`fetch` sets method, Content-Type and `keepalive:true` but passes NO
`credentials` entry at all.  In both, the whole body is wrapped in
`try/catch` and the fetch promise gets a `.catch` that only logs, so no
transport failure reaches the caller and nothing is retried. -/

/-- The option bag passed to `fetch`: `credentials = none` means the call
site passes no `credentials` key (the browser default applies);
`some "omit"` means it is explicitly set to `'omit'`. -/
structure FetchOpts where
  method : String
  contentType : String
  keepalive : Bool
  credentials : Option String
deriving DecidableEq, Repr

/-- One network attempt made by `_sendPayload`. -/
inductive TransportAttempt (π : Type) where
  | beacon : (url : String) → (blobType : String) → (payload : π) → TransportAttempt π
  | fetchPost : (url : String) → (opts : FetchOpts) → (payload : π) → TransportAttempt π
deriving DecidableEq, Repr

/-- Observable behaviour of one `_sendPayload` invocation: the attempts it
makes (in order), whether an exception escapes to the caller, and how many
failure warnings it logs. -/
structure SendResult (π : Type) where
  attempts : List (TransportAttempt π)
  raisedToCaller : Bool
  warningsLogged : Nat
deriving DecidableEq, Repr

/-- `_sendPayload` of `unnamed/part_001` (lines 93–111).  `beaconAvail`
models `navigator.sendBeacon` being a function; `fetchFails` models the
fetch promise rejecting (handled by the `.catch` that logs one warning). -/
def sendPayloadP1 {π : Type} (endpoint : String) (beaconAvail : Bool)
    (fetchFails : Bool) (payload : π) : SendResult π :=
  if beaconAvail then
    { attempts := [.beacon endpoint "application/json" payload]
      raisedToCaller := false
      warningsLogged := 0 }
  else
    { attempts := [.fetchPost endpoint
        ⟨"POST", "application/json", true, some "omit"⟩ payload]
      raisedToCaller := false
      warningsLogged := if fetchFails then 1 else 0 }

/-- `_sendPayload` of `unnamed/part_000` (lines 445–465): fixed URL, and the
fallback `fetch` options carry no `credentials` entry. -/
def sendPayloadP0 {π : Type} (beaconAvail : Bool) (fetchFails : Bool)
    (payload : π) : SendResult π :=
  if beaconAvail then
    { attempts := [.beacon "/api/v1/behavior/log" "application/json" payload]
      raisedToCaller := false
      warningsLogged := 0 }
  else
    { attempts := [.fetchPost "/api/v1/behavior/log"
        ⟨"POST", "application/json", true, none⟩ payload]
      raisedToCaller := false
      warningsLogged := if fetchFails then 1 else 0 }

/-- Does a fetch attempt explicitly set `credentials: 'omit'`? -/
def attemptOmitsCredentials {π : Type} : TransportAttempt π → Bool
  | .beacon _ _ _ => true
  | .fetchPost _ opts _ => opts.credentials = some "omit"

end BT

/-- C2 counterexample: in the `unnamed/part_000` iteration of
`_sendPayload`, with the beacon transport unavailable, the keep-alive POST
is issued WITHOUT an explicit `credentials: 'omit'` — the options carry no
credentials entry, so the claim "explicitly without credentials" is false
for this delivery-layer call site. -/
theorem BT.c2_counterexample :
    (BT.sendPayloadP0 (π := Unit) false true ()).attempts =
      [.fetchPost "/api/v1/behavior/log" ⟨"POST", "application/json", true, none⟩ ()] ∧
    ((BT.sendPayloadP0 (π := Unit) false true ()).attempts.all
      BT.attemptOmitsCredentials) = false := by
  constructor
  · rfl
  · decide

/-- C2 amended: when the beacon transport is unavailable, the
`unnamed/part_001` `_sendPayload` issues one keep-alive POST with
Content-Type `application/json` and `credentials: 'omit'`, while the
`unnamed/part_000` iteration issues the same keep-alive POST but with no
explicit credentials entry (browser default); in every case, for both
iterations, exactly one transport attempt is made (no retry), any transport
failure is only logged as a warning, and no exception is raised to the
caller. -/
theorem BT.c2_delivery_policy {π : Type} (endpoint : String)
    (beaconAvail fetchFails : Bool) (payload : π) :
    (beaconAvail = false →
      (BT.sendPayloadP1 endpoint beaconAvail fetchFails payload).attempts =
        [.fetchPost endpoint ⟨"POST", "application/json", true, some "omit"⟩ payload]) ∧
    (beaconAvail = false →
      (BT.sendPayloadP0 beaconAvail fetchFails payload).attempts =
        [.fetchPost "/api/v1/behavior/log" ⟨"POST", "application/json", true, none⟩ payload]) ∧
    (BT.sendPayloadP1 endpoint beaconAvail fetchFails payload).raisedToCaller = false ∧
    (BT.sendPayloadP0 beaconAvail fetchFails payload).raisedToCaller = false ∧
    (BT.sendPayloadP1 endpoint beaconAvail fetchFails payload).attempts.length = 1 ∧
    (BT.sendPayloadP0 beaconAvail fetchFails payload).attempts.length = 1 ∧
    (beaconAvail = false → fetchFails = true →
      (BT.sendPayloadP1 endpoint beaconAvail fetchFails payload).warningsLogged = 1 ∧
      (BT.sendPayloadP0 beaconAvail fetchFails payload).warningsLogged = 1) := by
  cases beaconAvail <;> cases fetchFails <;>
    simp [BT.sendPayloadP1, BT.sendPayloadP0]

/-- C2 witness: the amended delivery policy at a concrete failing,
beacon-less invocation. -/
theorem BT.c2_delivery_policy_witness :
    (BT.sendPayloadP1 (π := Nat) "/api/v1/behavior/log" false true 7).attempts =
      [.fetchPost "/api/v1/behavior/log" ⟨"POST", "application/json", true, some "omit"⟩ 7] ∧
    (BT.sendPayloadP1 (π := Nat) "/api/v1/behavior/log" false true 7).raisedToCaller = false := by
  have h := BT.c2_delivery_policy (π := Nat) "/api/v1/behavior/log" false true 7
  exact ⟨h.1 rfl, h.2.2.1⟩

namespace BT

/-! ## Edit-cycle analyzer (smart code monitoring)

Source: `behavior_tracker.js`, `_smartRecordCodeChange` / `_handleDeletion` /
`_handleAddition` / `_completeEditCycle` / `_recordMeaningfulEdit` /
`_recordProblemEvent` / `_submitSignificantEdits` /
`_calculateProblemSeverity` (lines 175–474).  `Date.now()` readings are the
`timestamp` parameters; the `Math.random()` pick inside
`_generateHintMessage` is the `randIdx` parameter. -/

/-- Per-surface monitor state, `_createEditorState()`. -/
structure BufEntry where
  timestamp : Int
  length : Nat
  change : Int
  content : String
deriving DecidableEq, Repr

/-- One editor's monitoring state (`codeMonitorStates[editorType]`). -/
structure EditorState where
  lastContent : String
  lastLength : Nat
  lastMeaningfulEdit : Int
  isDeleting : Bool
  deleteStartTime : Int
  deleteStartLength : Nat
  consecutiveEdits : Nat
  editBuffer : List BufEntry
deriving DecidableEq, Repr

/-- `_createEditorState()`. -/
def initialEditorState : EditorState :=
  { lastContent := ""
    lastLength := 0
    lastMeaningfulEdit := 0
    isDeleting := false
    deleteStartTime := 0
    deleteStartLength := 0
    consecutiveEdits := 0
    editBuffer := [] }

/-- `codeMonitoringConfig`. -/
structure MonitorConfig where
  minChangeThreshold : Nat
  meaningfulEditTimeout : Int
  problemDetectionThreshold : Nat
  maxHistoryLength : Nat
deriving DecidableEq, Repr

/-- The constructor defaults: 10 / 3000 ms / 3 / 100. -/
def defaultMonitorConfig : MonitorConfig :=
  { minChangeThreshold := 10
    meaningfulEditTimeout := 3000
    problemDetectionThreshold := 3
    maxHistoryLength := 100 }

/-- `hintConfig` (threshold and cooldown; `lastHintTime` lives in the
mutable tracker context below). -/
structure HintCfg where
  hintThreshold : Nat
  cooldownPeriod : Int
deriving DecidableEq, Repr

/-- The constructor defaults: threshold 3, cooldown 30 000 ms. -/
def defaultHintCfg : HintCfg := { hintThreshold := 3, cooldownPeriod := 30000 }

/-- A record pushed onto `this.significantEdits`: either a completed
delete→rewrite cycle or a meaningful addition (the two object shapes the
source pushes, tagged by their `type` field). -/
inductive EditRecord where
  | editCycle : (editor : String) → (timestamp : Int) → (duration : Int) →
      (netChange : Int) → (absoluteChange : Nat) → (startLength : Nat) →
      (endLength : Nat) → (consecutiveEdits : Nat) → EditRecord
  | addition : (editor : String) → (timestamp : Int) → (changeAmount : Int) →
      (currentLength : Nat) → EditRecord
deriving DecidableEq, Repr

/-- An entry of `this.problemEvents`. -/
structure ProblemEvent where
  editor : String
  timestamp : Int
  consecutiveEdits : Nat
  severity : String
deriving DecidableEq, Repr

/-- Tracker-level mutable fields touched by the analyzer. -/
structure TrackerCtx where
  significantEdits : List EditRecord
  problemEvents : List ProblemEvent
  lastHintTime : Int
deriving DecidableEq, Repr

/-- The constructor's initial tracker-level state. -/
def initialTrackerCtx : TrackerCtx :=
  { significantEdits := [], problemEvents := [], lastHintTime := 0 }

/-- Events the analyzer hands to `logEvent` or dispatches on the DOM during
one handler turn, in order. -/
inductive Emitted where
  | significantEditsBatch : (count : Nat) → (edits : List EditRecord) → Emitted
  | codingProblem : (editor : String) → (consecutiveEdits : Nat) →
      (severity : String) → Emitted
  | largeAddition : (record : EditRecord) → Emitted
  | problemHintDom : (editor : String) → (editCount : Nat) →
      (message : String) → Emitted
deriving DecidableEq, Repr

/-- Is an emission the immediate `coding_problem` upload
(`_submitProblemEvent`'s `logEvent('coding_problem', …)`)? -/
def isCodingProblemEmit : Emitted → Bool
  | .codingProblem _ _ _ => true
  | _ => false

/-- `_calculateProblemSeverity(consecutiveEdits)`. -/
def calculateProblemSeverity (consecutiveEdits : Nat) : String :=
  if consecutiveEdits ≥ 10 then "high"
  else if consecutiveEdits ≥ 5 then "medium"
  else "low"

/-- `editorNames[editorType]` inside `_generateHintMessage`; an unknown key
interpolates as `undefined` in JS. -/
def editorDisplayName : String → String
  | "html" => "HTML"
  | "css" => "CSS"
  | "js" => "JavaScript"
  | _ => "undefined"

/-- `_generateHintMessage(editorType, editCount)` with the random pick
`Math.floor(Math.random() * messages.length)` passed in as `randIdx`
(reduced modulo the list length). -/
def generateHintMessage (editorType : String) (editCount : Nat) (randIdx : Nat) : String :=
  let n := editorDisplayName editorType
  let messages : List String :=
    [ s!"我注意到您在{n}代码中反复修改了{editCount}次，需要帮助吗？"
    , s!"检测到{n}代码有{editCount}处反复修改，是否需要协助解决？"
    , s!"看起来您在{n}部分遇到了些困难，需要我提供建议吗？"
    , s!"您在{n}编辑器中多次调整代码，有什么我可以帮忙的吗？" ]
  messages.getD (randIdx % messages.length) ""

/-- `_triggerProblemHint(editorType, editCount, timestamp)`: cooldown-gated
dispatch of the `problemHintNeeded` DOM event.  The `Date.now()` it reads
is the same handler turn as `timestamp`. -/
def triggerProblemHint (hintCfg : HintCfg) (randIdx : Nat) (editorType : String)
    (editCount : Nat) (timestamp : Int) (ctx : TrackerCtx) :
    TrackerCtx × List Emitted :=
  if timestamp - ctx.lastHintTime < hintCfg.cooldownPeriod then (ctx, [])
  else
    ({ ctx with lastHintTime := timestamp },
     [.problemHintDom editorType editCount
        (generateHintMessage editorType editCount randIdx)])

/-- `_submitSignificantEdits()`: nothing when the history is empty,
otherwise one `significant_edits` batch of `slice(-5)` (the most recent
min(5, length) records). -/
def submitSignificantEdits (sig : List EditRecord) : List Emitted :=
  if sig.length = 0 then []
  else
    let editsToSubmit := sig.drop (sig.length - 5)
    [.significantEditsBatch editsToSubmit.length editsToSubmit]

/-- `_recordProblemEvent(editorType, consecutiveEdits, timestamp)`: push a
problem event, maybe trigger the hint, then immediately submit the
`coding_problem` event. -/
def recordProblemEvent (hintCfg : HintCfg) (randIdx : Nat) (editorType : String)
    (consecutiveEdits : Nat) (timestamp : Int) (ctx : TrackerCtx) :
    TrackerCtx × List Emitted :=
  let pe : ProblemEvent :=
    { editor := editorType
      timestamp := timestamp
      consecutiveEdits := consecutiveEdits
      severity := calculateProblemSeverity consecutiveEdits }
  let ctx1 := { ctx with problemEvents := ctx.problemEvents ++ [pe] }
  let hinted :=
    if consecutiveEdits ≥ hintCfg.hintThreshold then
      triggerProblemHint hintCfg randIdx editorType consecutiveEdits timestamp ctx1
    else (ctx1, [])
  (hinted.1, hinted.2 ++ [.codingProblem pe.editor pe.consecutiveEdits pe.severity])

/-- `_completeEditCycle(editorType, state, timestamp, finalLength)`.
Record the cycle only when `|netChange| ≥ minChangeThreshold` (with FIFO
eviction past `maxHistoryLength`), then problem detection, then the batch
submission check, and finally the unconditional state reset. -/
def completeEditCycle (cfg : MonitorConfig) (hintCfg : HintCfg) (randIdx : Nat)
    (editorType : String) (st : EditorState) (timestamp : Int) (finalLength : Nat)
    (ctx : TrackerCtx) : EditorState × TrackerCtx × List Emitted :=
  let deleteDuration := timestamp - st.deleteStartTime
  let netChange : Int := (finalLength : Int) - (st.deleteStartLength : Int)
  let absoluteChange : Nat := netChange.natAbs
  let recorded :=
    if absoluteChange ≥ cfg.minChangeThreshold then
      let editRecord : EditRecord :=
        .editCycle editorType timestamp deleteDuration netChange absoluteChange
          st.deleteStartLength finalLength st.consecutiveEdits
      let sig1 := ctx.significantEdits ++ [editRecord]
      let sig2 := if sig1.length > cfg.maxHistoryLength then sig1.drop 1 else sig1
      let ctxA := { ctx with significantEdits := sig2 }
      let problem :=
        if st.consecutiveEdits ≥ cfg.problemDetectionThreshold then
          recordProblemEvent hintCfg randIdx editorType st.consecutiveEdits timestamp ctxA
        else (ctxA, [])
      let emitsBatch :=
        if problem.1.significantEdits.length ≥ 5 ∨
            st.consecutiveEdits ≥ cfg.problemDetectionThreshold then
          submitSignificantEdits problem.1.significantEdits
        else []
      (problem.1, problem.2 ++ emitsBatch)
    else (ctx, [])
  ({ st with
      isDeleting := false
      deleteStartTime := 0
      deleteStartLength := 0
      consecutiveEdits := 0 },
   recorded.1, recorded.2)

/-- `_recordMeaningfulEdit(editorType, 'addition', changeAmount,
currentLength, timestamp)`: push the addition record, then the tiered
upload logic (`changeAmount >= 50` ⇒ immediate `large_addition`, else a
batch every time the history length is a multiple of 5), then FIFO
eviction. -/
def recordMeaningfulEdit (cfg : MonitorConfig) (editorType : String)
    (changeAmount : Int) (currentLength : Nat) (timestamp : Int)
    (ctx : TrackerCtx) : TrackerCtx × List Emitted :=
  let editRecord : EditRecord := .addition editorType timestamp changeAmount currentLength
  let sig1 := ctx.significantEdits ++ [editRecord]
  let emits :=
    if changeAmount ≥ 50 then [.largeAddition editRecord]
    else if sig1.length % 5 = 0 then submitSignificantEdits sig1
    else []
  let sig2 := if sig1.length > cfg.maxHistoryLength then sig1.drop 1 else sig1
  ({ ctx with significantEdits := sig2 }, emits)

/-- `_handleDeletion(editorType, state, currentLength, timestamp)`.  Note
that `_smartRecordCodeChange` has already written `currentLength` into
`state.lastLength` before this runs, so `deleteStartLength` records the
length *after* the first deletion step, exactly as the source does. -/
def handleDeletion (st : EditorState) (timestamp : Int) : EditorState :=
  if !st.isDeleting then
    { st with
        isDeleting := true
        deleteStartTime := timestamp
        deleteStartLength := st.lastLength
        consecutiveEdits := st.consecutiveEdits + 1 }
  else st

/-- `_handleAddition(editorType, state, lengthChange, currentLength,
timestamp, timeSinceLastEdit)`. -/
def handleAddition (cfg : MonitorConfig) (hintCfg : HintCfg) (randIdx : Nat)
    (editorType : String) (st : EditorState) (lengthChange : Int)
    (currentLength : Nat) (timestamp : Int) (timeSinceLastEdit : Int)
    (ctx : TrackerCtx) : EditorState × TrackerCtx × List Emitted :=
  let stepped :=
    if st.isDeleting then
      completeEditCycle cfg hintCfg randIdx editorType st timestamp currentLength ctx
    else if lengthChange ≥ (cfg.minChangeThreshold : Int) ∧
        timeSinceLastEdit > cfg.meaningfulEditTimeout then
      let r := recordMeaningfulEdit cfg editorType lengthChange currentLength timestamp ctx
      (st, r.1, r.2)
    else (st, ctx, [])
  ({ stepped.1 with
      consecutiveEdits := stepped.1.consecutiveEdits + 1
      lastMeaningfulEdit := timestamp },
   stepped.2.1, stepped.2.2)

/-- `_smartRecordCodeChange(editorType, currentContent)` with the
`Date.now()` reading passed in as `now`. -/
def smartRecordCodeChange (cfg : MonitorConfig) (hintCfg : HintCfg) (randIdx : Nat)
    (editorType : String) (st : EditorState) (ctx : TrackerCtx)
    (currentContent : String) (now : Int) : EditorState × TrackerCtx × List Emitted :=
  let currentLength := currentContent.length
  let previousLength := st.lastLength
  let lengthChange : Int := (currentLength : Int) - (previousLength : Int)
  let st1 := { st with lastContent := currentContent, lastLength := currentLength }
  let timeSinceLastEdit := now - st1.lastMeaningfulEdit
  let stepped :=
    if lengthChange < 0 then (handleDeletion st1 now, ctx, [])
    else if lengthChange > 0 then
      handleAddition cfg hintCfg randIdx editorType st1 lengthChange currentLength
        now timeSinceLastEdit ctx
    else (st1, ctx, [])
  let buf1 := stepped.1.editBuffer ++
    [{ timestamp := now, length := currentLength, change := lengthChange,
       content := currentContent }]
  let buf2 := if buf1.length > 20 then buf1.drop 1 else buf1
  ({ stepped.1 with editBuffer := buf2 }, stepped.2.1, stepped.2.2)

/-- Feed a list of `(Date.now(), editor content)` signals through
`_smartRecordCodeChange`, collecting every emission in order. -/
def runSmart (cfg : MonitorConfig) (hintCfg : HintCfg) (randIdx : Nat)
    (editorType : String) (signals : List (Int × String)) (st : EditorState)
    (ctx : TrackerCtx) : EditorState × TrackerCtx × List Emitted :=
  match signals with
  | [] => (st, ctx, [])
  | (t, content) :: rest =>
      let one := smartRecordCodeChange cfg hintCfg randIdx editorType st ctx content t
      let more := runSmart cfg hintCfg randIdx editorType rest one.1 one.2.1
      (more.1, more.2.1, one.2.2 ++ more.2.2)

/-- A string of `n` letters, standing in for editor content of length `n`. -/
def mkContent (n : Nat) : String := String.mk (List.replicate n 'a')

/-- `_triggerProblemHint` never touches the significant-edit history. -/
theorem triggerProblemHint_keeps_sig (hintCfg : HintCfg) (randIdx : Nat)
    (editorType : String) (editCount : Nat) (timestamp : Int) (ctx : TrackerCtx) :
    (triggerProblemHint hintCfg randIdx editorType editCount timestamp ctx).1.significantEdits
      = ctx.significantEdits := by
  unfold triggerProblemHint
  split <;> rfl

/-- `_recordProblemEvent` never touches the significant-edit history. -/
theorem recordProblemEvent_keeps_sig (hintCfg : HintCfg) (randIdx : Nat)
    (editorType : String) (consecutiveEdits : Nat) (timestamp : Int)
    (ctx : TrackerCtx) :
    (recordProblemEvent hintCfg randIdx editorType consecutiveEdits timestamp ctx).1.significantEdits
      = ctx.significantEdits := by
  unfold recordProblemEvent
  split
  · rw [triggerProblemHint_keeps_sig]
  · rfl

/-- A `significant_edits` batch is never a `coding_problem` emission. -/
theorem submitSignificantEdits_no_problem (sig : List EditRecord) :
    (submitSignificantEdits sig).filter isCodingProblemEmit = [] := by
  unfold submitSignificantEdits
  split <;> simp [isCodingProblemEmit]

/-- The hint dispatch is never a `coding_problem` emission. -/
theorem triggerProblemHint_no_problem (hintCfg : HintCfg) (randIdx : Nat)
    (editorType : String) (editCount : Nat) (timestamp : Int) (ctx : TrackerCtx) :
    (triggerProblemHint hintCfg randIdx editorType editCount timestamp ctx).2.filter
      isCodingProblemEmit = [] := by
  unfold triggerProblemHint
  split <;> simp [isCodingProblemEmit]

/-- `_triggerProblemHint` never touches the problem-event history. -/
theorem triggerProblemHint_keeps_problems (hintCfg : HintCfg) (randIdx : Nat)
    (editorType : String) (editCount : Nat) (timestamp : Int) (ctx : TrackerCtx) :
    (triggerProblemHint hintCfg randIdx editorType editCount timestamp ctx).1.problemEvents
      = ctx.problemEvents := by
  unfold triggerProblemHint
  split <;> rfl

/-- `_recordProblemEvent` emits exactly one `coding_problem` event, carrying
the consecutive-edit count and its computed severity. -/
theorem recordProblemEvent_filter (hintCfg : HintCfg) (randIdx : Nat)
    (editorType : String) (consecutiveEdits : Nat) (timestamp : Int)
    (ctx : TrackerCtx) :
    (recordProblemEvent hintCfg randIdx editorType consecutiveEdits timestamp
      ctx).2.filter isCodingProblemEmit =
      [.codingProblem editorType consecutiveEdits
        (calculateProblemSeverity consecutiveEdits)] := by
  unfold recordProblemEvent
  split
  · simp [List.filter_append, triggerProblemHint_no_problem, isCodingProblemEmit]
  · simp [isCodingProblemEmit]

/-- `_recordProblemEvent` appends exactly one record to `problemEvents`. -/
theorem recordProblemEvent_problems (hintCfg : HintCfg) (randIdx : Nat)
    (editorType : String) (consecutiveEdits : Nat) (timestamp : Int)
    (ctx : TrackerCtx) :
    (recordProblemEvent hintCfg randIdx editorType consecutiveEdits timestamp
      ctx).1.problemEvents = ctx.problemEvents ++
      [{ editor := editorType, timestamp := timestamp,
         consecutiveEdits := consecutiveEdits,
         severity := calculateProblemSeverity consecutiveEdits }] := by
  unfold recordProblemEvent
  split
  · rw [triggerProblemHint_keeps_problems]
  · rfl

end BT

/-- C3: for every completed delete→add edit cycle, with
`netChange = finalLength - deleteStartLength`: if
`|netChange| < minChangeThreshold` the significant-edit history is left
unchanged and nothing is emitted, and if `|netChange| ≥ minChangeThreshold`
exactly one `edit_cycle` record (the one the source builds) is appended to
the history (FIFO eviction past the cap applying to the oldest entry). -/
theorem BT.c3_edit_cycle_recording (cfg : BT.MonitorConfig) (hintCfg : BT.HintCfg)
    (randIdx : Nat) (editorType : String) (st : BT.EditorState) (timestamp : Int)
    (finalLength : Nat) (ctx : BT.TrackerCtx) :
    (((finalLength : Int) - (st.deleteStartLength : Int)).natAbs < cfg.minChangeThreshold →
      (BT.completeEditCycle cfg hintCfg randIdx editorType st timestamp finalLength
        ctx).2.1.significantEdits = ctx.significantEdits ∧
      (BT.completeEditCycle cfg hintCfg randIdx editorType st timestamp finalLength
        ctx).2.2 = []) ∧
    (cfg.minChangeThreshold ≤ ((finalLength : Int) - (st.deleteStartLength : Int)).natAbs →
      (BT.completeEditCycle cfg hintCfg randIdx editorType st timestamp finalLength
        ctx).2.1.significantEdits =
        (let sig1 := ctx.significantEdits ++
          [BT.EditRecord.editCycle editorType timestamp (timestamp - st.deleteStartTime)
            ((finalLength : Int) - (st.deleteStartLength : Int))
            (((finalLength : Int) - (st.deleteStartLength : Int)).natAbs)
            st.deleteStartLength finalLength st.consecutiveEdits]
         if sig1.length > cfg.maxHistoryLength then sig1.drop 1 else sig1)) := by
  constructor
  · intro hlt
    have hneg : ¬ (((finalLength : Int) - (st.deleteStartLength : Int)).natAbs
        ≥ cfg.minChangeThreshold) := by omega
    simp [BT.completeEditCycle, hneg]
  · intro hge
    simp [BT.completeEditCycle, hge, BT.recordProblemEvent_keeps_sig]
    split <;> simp [BT.recordProblemEvent_keeps_sig]

/-- C3 witness: a concrete below-threshold cycle (start length 16, final
length 18, net change 2 < 10) leaves the empty history unchanged and emits
nothing. -/
theorem BT.c3_edit_cycle_recording_witness :
    (BT.completeEditCycle BT.defaultMonitorConfig BT.defaultHintCfg 0 "html"
      { BT.initialEditorState with
          isDeleting := true, deleteStartTime := 10200,
          deleteStartLength := 16, consecutiveEdits := 3 }
      10300 18 BT.initialTrackerCtx).2.1.significantEdits = [] ∧
    (BT.completeEditCycle BT.defaultMonitorConfig BT.defaultHintCfg 0 "html"
      { BT.initialEditorState with
          isDeleting := true, deleteStartTime := 10200,
          deleteStartLength := 16, consecutiveEdits := 3 }
      10300 18 BT.initialTrackerCtx).2.2 = [] := by
  have h := BT.c3_edit_cycle_recording BT.defaultMonitorConfig BT.defaultHintCfg 0 "html"
    { BT.initialEditorState with
        isDeleting := true, deleteStartTime := 10200,
        deleteStartLength := 16, consecutiveEdits := 3 }
    10300 18 BT.initialTrackerCtx
  exact h.1 (by decide)

/-- C10: completing an edit cycle always resets the surface state —
`isDeleting := false`, `deleteStartTime := 0`, `deleteStartLength := 0`,
`consecutiveEdits := 0` — even when `|netChange| < minChangeThreshold`, in
which case additionally no significant edit, no problem event and no
emission is produced.  Hence the consecutive-edit count seen at a cycle
completion only counts signals since the previous completion. -/
theorem BT.c10_cycle_always_resets (cfg : BT.MonitorConfig) (hintCfg : BT.HintCfg)
    (randIdx : Nat) (editorType : String) (st : BT.EditorState) (timestamp : Int)
    (finalLength : Nat) (ctx : BT.TrackerCtx) :
    (BT.completeEditCycle cfg hintCfg randIdx editorType st timestamp finalLength
      ctx).1.isDeleting = false ∧
    (BT.completeEditCycle cfg hintCfg randIdx editorType st timestamp finalLength
      ctx).1.deleteStartTime = 0 ∧
    (BT.completeEditCycle cfg hintCfg randIdx editorType st timestamp finalLength
      ctx).1.deleteStartLength = 0 ∧
    (BT.completeEditCycle cfg hintCfg randIdx editorType st timestamp finalLength
      ctx).1.consecutiveEdits = 0 ∧
    (((finalLength : Int) - (st.deleteStartLength : Int)).natAbs < cfg.minChangeThreshold →
      (BT.completeEditCycle cfg hintCfg randIdx editorType st timestamp finalLength
        ctx).2.1 = ctx ∧
      (BT.completeEditCycle cfg hintCfg randIdx editorType st timestamp finalLength
        ctx).2.2 = []) := by
  refine ⟨rfl, rfl, rfl, rfl, ?_⟩
  intro hlt
  have hneg : ¬ (((finalLength : Int) - (st.deleteStartLength : Int)).natAbs
      ≥ cfg.minChangeThreshold) := by omega
  simp [BT.completeEditCycle, hneg]

/-- C10 witness: the reset at a concrete below-threshold completion. -/
theorem BT.c10_cycle_always_resets_witness :
    (BT.completeEditCycle BT.defaultMonitorConfig BT.defaultHintCfg 0 "css"
      { BT.initialEditorState with
          isDeleting := true, deleteStartTime := 500,
          deleteStartLength := 40, consecutiveEdits := 7 }
      900 42 BT.initialTrackerCtx).1.consecutiveEdits = 0 ∧
    (BT.completeEditCycle BT.defaultMonitorConfig BT.defaultHintCfg 0 "css"
      { BT.initialEditorState with
          isDeleting := true, deleteStartTime := 500,
          deleteStartLength := 40, consecutiveEdits := 7 }
      900 42 BT.initialTrackerCtx).2.2 = [] := by
  have h := BT.c10_cycle_always_resets BT.defaultMonitorConfig BT.defaultHintCfg 0 "css"
    { BT.initialEditorState with
        isDeleting := true, deleteStartTime := 500,
        deleteStartLength := 40, consecutiveEdits := 7 }
    900 42 BT.initialTrackerCtx
  exact ⟨h.2.2.2.1, (h.2.2.2.2 (by decide)).2⟩

namespace BT

/-- Signal trace for the C4 counterexample: a meaningful addition, a small
addition, a small deletion, a small re-addition — reaching a cycle
completion with `consecutiveEdits = 3` but `|netChange| = 2 < 10`. -/
def c4Signals : List (Int × String) :=
  [(10000, mkContent 20), (10100, mkContent 21), (10200, mkContent 16),
   (10300, mkContent 18)]

end BT

/-- C4 counterexample: starting from the initial state with the default
configuration, after the first three signals of `c4Signals` the surface is
in a delete phase with `consecutiveEdits = 3` (at the problem-detection
threshold); the fourth signal adds text, completing the cycle — yet the
whole run emits nothing at all, in particular no `coding_problem` event,
because `|netChange| = 2` is below `minChangeThreshold`.  This falsifies
"whenever a cycle completes with `consecutiveEdits ≥ 3` a ProblemEvent is
always emitted". -/
theorem BT.c4_counterexample :
    (BT.runSmart BT.defaultMonitorConfig BT.defaultHintCfg 0 "html"
      (BT.c4Signals.take 3) BT.initialEditorState BT.initialTrackerCtx).1.isDeleting = true ∧
    (BT.runSmart BT.defaultMonitorConfig BT.defaultHintCfg 0 "html"
      (BT.c4Signals.take 3) BT.initialEditorState BT.initialTrackerCtx).1.consecutiveEdits = 3 ∧
    BT.defaultMonitorConfig.problemDetectionThreshold ≤ 3 ∧
    (BT.runSmart BT.defaultMonitorConfig BT.defaultHintCfg 0 "html"
      BT.c4Signals BT.initialEditorState BT.initialTrackerCtx).1.isDeleting = false ∧
    (BT.runSmart BT.defaultMonitorConfig BT.defaultHintCfg 0 "html"
      BT.c4Signals BT.initialEditorState BT.initialTrackerCtx).2.1.problemEvents = [] ∧
    (BT.runSmart BT.defaultMonitorConfig BT.defaultHintCfg 0 "html"
      BT.c4Signals BT.initialEditorState BT.initialTrackerCtx).2.2 = [] := by
  decide

/-- C4 amended: whenever an edit cycle completes with
`|netChange| ≥ minChangeThreshold` AND `consecutiveEdits ≥
problemDetectionThreshold`, exactly one ProblemEvent is recorded and
exactly one `coding_problem` event is emitted in the same handler turn
(immediately, not inside any batch payload), with severity computed purely
from the consecutive-edit count: `<5 → low`, `5..9 → medium`,
`≥10 → high`. -/
theorem BT.c4_problem_event_on_cycle (cfg : BT.MonitorConfig) (hintCfg : BT.HintCfg)
    (randIdx : Nat) (editorType : String) (st : BT.EditorState) (timestamp : Int)
    (finalLength : Nat) (ctx : BT.TrackerCtx)
    (habs : cfg.minChangeThreshold ≤ ((finalLength : Int) - (st.deleteStartLength : Int)).natAbs)
    (hce : cfg.problemDetectionThreshold ≤ st.consecutiveEdits) :
    (BT.completeEditCycle cfg hintCfg randIdx editorType st timestamp finalLength
      ctx).2.2.filter BT.isCodingProblemEmit =
      [.codingProblem editorType st.consecutiveEdits
        (BT.calculateProblemSeverity st.consecutiveEdits)] ∧
    (BT.completeEditCycle cfg hintCfg randIdx editorType st timestamp finalLength
      ctx).2.1.problemEvents = ctx.problemEvents ++
      [{ editor := editorType, timestamp := timestamp,
         consecutiveEdits := st.consecutiveEdits,
         severity := BT.calculateProblemSeverity st.consecutiveEdits }] ∧
    (∀ n : Nat, (n < 5 → BT.calculateProblemSeverity n = "low") ∧
      (5 ≤ n → n ≤ 9 → BT.calculateProblemSeverity n = "medium") ∧
      (10 ≤ n → BT.calculateProblemSeverity n = "high")) := by
  refine ⟨?_, ?_, ?_⟩
  · unfold BT.completeEditCycle
    simp only [ge_iff_le, habs, hce, if_true, ite_true, List.filter_append,
      BT.recordProblemEvent_filter]
    split <;>
      simp [BT.submitSignificantEdits_no_problem]
  · unfold BT.completeEditCycle
    simp only [ge_iff_le, habs, hce, if_true, ite_true,
      BT.recordProblemEvent_problems]
  · intro n
    refine ⟨?_, ?_, ?_⟩ <;> intro h
    · unfold BT.calculateProblemSeverity
      rw [if_neg (by omega), if_neg (by omega)]
    · intro h9
      unfold BT.calculateProblemSeverity
      rw [if_neg (by omega), if_pos (by omega)]
    · unfold BT.calculateProblemSeverity
      rw [if_pos (by omega)]

/-- C4 witness: a concrete above-threshold cycle with six consecutive edits
yields exactly one immediately-delivered `coding_problem` emission of
severity `medium`. -/
theorem BT.c4_problem_event_on_cycle_witness :
    (BT.completeEditCycle BT.defaultMonitorConfig BT.defaultHintCfg 0 "js"
      { BT.initialEditorState with
          isDeleting := true, deleteStartTime := 40000,
          deleteStartLength := 30, consecutiveEdits := 6 }
      41000 45 BT.initialTrackerCtx).2.2.filter BT.isCodingProblemEmit =
      [.codingProblem "js" 6 (BT.calculateProblemSeverity 6)] := by
  have h := BT.c4_problem_event_on_cycle BT.defaultMonitorConfig BT.defaultHintCfg 0 "js"
    { BT.initialEditorState with
        isDeleting := true, deleteStartTime := 40000,
        deleteStartLength := 30, consecutiveEdits := 6 }
    41000 45 BT.initialTrackerCtx (by decide) (by decide)
  exact h.1

namespace BT

/-- Context for the C7 counterexample: four unsent addition records already
in the history (none of them ever batch-submitted). -/
def c7Ctx : TrackerCtx :=
  { significantEdits :=
      [ .addition "html" 1000 12 30, .addition "html" 4500 15 45,
        .addition "html" 8100 11 56, .addition "html" 12000 13 69 ]
    problemEvents := []
    lastHintTime := 0 }

end BT

/-- C7 counterexample: with four unsent records in the history, a fifth
meaningful addition of magnitude 60 (≥ the large threshold) brings the
history to 5 unsent records, yet NO `significant_edits` batch is submitted
— only the immediate `large_addition` upload happens, because the
`changeAmount >= 50` branch skips the batch check entirely.  This falsifies
"a batch of the most recent 5 is submitted exactly when the history reaches
5 unsent records". -/
theorem BT.c7_counterexample :
    (BT.recordMeaningfulEdit BT.defaultMonitorConfig "html" 60 129 15000
      BT.c7Ctx).1.significantEdits.length = 5 ∧
    (BT.recordMeaningfulEdit BT.defaultMonitorConfig "html" 60 129 15000
      BT.c7Ctx).2 = [.largeAddition (.addition "html" 15000 60 129)] := by
  decide

/-- C7 amended: in the meaningful-addition path, after the record is
appended: an addition of magnitude ≥ 50 is uploaded immediately as one
`large_addition` event, bypassing batching (and suppressing the batch check
for that record); an addition below 50 triggers a batch of exactly the 5
most recent history records precisely when the total history length is a
multiple of 5, and emits nothing otherwise. -/
theorem BT.c7_submission_policy (cfg : BT.MonitorConfig) (editorType : String)
    (changeAmount : Int) (currentLength : Nat) (timestamp : Int)
    (ctx : BT.TrackerCtx) :
    ((50 : Int) ≤ changeAmount →
      (BT.recordMeaningfulEdit cfg editorType changeAmount currentLength timestamp
        ctx).2 = [.largeAddition (.addition editorType timestamp changeAmount currentLength)]) ∧
    (changeAmount < 50 →
      (ctx.significantEdits ++
        [BT.EditRecord.addition editorType timestamp changeAmount currentLength]).length % 5 = 0 →
      (BT.recordMeaningfulEdit cfg editorType changeAmount currentLength timestamp
        ctx).2 = [.significantEditsBatch 5
          ((ctx.significantEdits ++
            [BT.EditRecord.addition editorType timestamp changeAmount currentLength]).drop
            (ctx.significantEdits.length + 1 - 5))] ∧
      ((ctx.significantEdits ++
        [BT.EditRecord.addition editorType timestamp changeAmount currentLength]).drop
        (ctx.significantEdits.length + 1 - 5)).length = 5) ∧
    (changeAmount < 50 →
      (ctx.significantEdits ++
        [BT.EditRecord.addition editorType timestamp changeAmount currentLength]).length % 5 ≠ 0 →
      (BT.recordMeaningfulEdit cfg editorType changeAmount currentLength timestamp
        ctx).2 = []) := by
  refine ⟨?_, ?_, ?_⟩
  · intro hbig
    simp [BT.recordMeaningfulEdit, hbig]
  · intro hsmall hmod
    have hnotbig : ¬ ((50 : Int) ≤ changeAmount) := by omega
    simp only [List.length_append, List.length_cons, List.length_nil,
      Nat.zero_add] at hmod
    have hdroplen : ((ctx.significantEdits ++
        [BT.EditRecord.addition editorType timestamp changeAmount currentLength]).drop
        (ctx.significantEdits.length + 1 - 5)).length = 5 := by
      rw [List.length_drop, List.length_append]
      simp only [List.length_cons, List.length_nil, Nat.zero_add]
      omega
    refine ⟨?_, hdroplen⟩
    simp only [BT.recordMeaningfulEdit, BT.submitSignificantEdits, hnotbig, if_false,
      List.length_append, List.length_cons, List.length_nil, Nat.zero_add,
      hmod, if_true]
    rw [if_neg (by omega)]
    rw [hdroplen]
  · intro hsmall hmod
    have hnotbig : ¬ ((50 : Int) ≤ changeAmount) := by omega
    simp [BT.recordMeaningfulEdit, hnotbig, BT.submitSignificantEdits]
    intro hc
    exact absurd (by simpa using hc) hmod

/-- C7 witness: the amended policy at a concrete small fifth addition — the
batch of the 5 most recent records goes out exactly at history length 5. -/
theorem BT.c7_submission_policy_witness :
    (BT.recordMeaningfulEdit BT.defaultMonitorConfig "html" 20 89 15000
      BT.c7Ctx).2 = [.significantEditsBatch 5
        (BT.c7Ctx.significantEdits ++ [BT.EditRecord.addition "html" 15000 20 89])] := by
  have h := BT.c7_submission_policy BT.defaultMonitorConfig "html" 20 89 15000 BT.c7Ctx
  have h2 := (h.2.1 (by decide) (by decide)).1
  simpa using h2

namespace BT

/-! ## Click batching, `behavior_tracker.js` iteration
(`_enqueueClick` lines 856–866, `_flushClickBatch` lines 868–874)

The buffer and the single pending `setTimeout` are explicit state; the
timer is its absolute fire deadline.  The batch is polymorphic in the
record type because `_enqueueClick` treats the record as opaque. -/

/-- `initPageClick` defaults relevant to batching. -/
structure BatchCfg where
  flushInterval : Int
  maxBatchSize : Nat
deriving DecidableEq, Repr

/-- The source defaults: `flushInterval: 1200`, `maxBatchSize: 50`. -/
def defaultBatchCfg : BatchCfg := { flushInterval := 1200, maxBatchSize := 50 }

/-- `this._clickBatch` plus `this._clickBatchTimer` (as its absolute
deadline, `none` when no timer is pending). -/
structure BatchState (α : Type) where
  batch : List α
  timerDeadline : Option Int
deriving DecidableEq, Repr

/-- The empty initial batching state from the constructor. -/
def initialBatchState (α : Type) : BatchState α := { batch := [], timerDeadline := none }

/-- One flush handed to `_sendClickBatch`: the detached snapshot and the
`final` flag. -/
structure FlushOut (α : Type) where
  items : List α
  final : Bool
deriving DecidableEq, Repr

/-- `_flushClickBatch(isFinal)`: nothing on an empty buffer; otherwise the
whole buffer is synchronously detached (`splice`), the timer cleared, and
the snapshot handed to the asynchronous send. -/
def flushClickBatch {α : Type} (s : BatchState α) (isFinal : Bool) :
    BatchState α × List (FlushOut α) :=
  if s.batch.isEmpty then (s, [])
  else ({ batch := [], timerDeadline := none }, [{ items := s.batch, final := isFinal }])

/-- `_enqueueClick(rec)`: push; flush immediately at `maxBatchSize`;
otherwise start the flush timer only if none is pending. -/
def enqueueClick {α : Type} (cfg : BatchCfg) (now : Int) (rec : α)
    (s : BatchState α) : BatchState α × List (FlushOut α) :=
  let s1 : BatchState α := { s with batch := s.batch ++ [rec] }
  if s1.batch.length ≥ cfg.maxBatchSize then flushClickBatch s1 false
  else
    match s1.timerDeadline with
    | some _ => (s1, [])
    | none => ({ s1 with timerDeadline := some (now + cfg.flushInterval) }, [])

/-- Drive a time-ordered stream of clicks through `_enqueueClick`, firing
the pending timer (which runs `_flushClickBatch()`) whenever its deadline
has passed, and finally advancing the clock to `endTime`. -/
def runClicks {α : Type} (cfg : BatchCfg) (events : List (Int × α))
    (endTime : Int) (s : BatchState α) : BatchState α × List (FlushOut α) :=
  match events with
  | [] =>
      match s.timerDeadline with
      | some d => if d ≤ endTime then flushClickBatch s false else (s, [])
      | none => (s, [])
  | (t, rec) :: rest =>
      let fired :=
        match s.timerDeadline with
        | some d => if d ≤ t then flushClickBatch s false else (s, [])
        | none => (s, [])
      let enq := enqueueClick cfg t rec fired.1
      let more := runClicks cfg rest endTime enq.1
      (more.1, fired.2 ++ enq.2 ++ more.2)

/-- The 60-click scenario: clicks at one-millisecond spacing from time 0,
all inside one `flushInterval`. -/
def c5Clicks : List (Int × Unit) :=
  (List.range 60).map (fun i => ((i : Int), ()))

end BT

/-- C5: with the source defaults, (a) enqueueing into an empty, timer-less
buffer (capacity above one) flushes nothing and arms the timer exactly
`flushInterval` after the buffer became non-empty; (b) a later enqueue that
neither reaches `maxBatchSize` nor finds the timer missing leaves the
pending deadline untouched, so the flush fires exactly once per window;
(c) every flush of a non-empty buffer synchronously detaches it — the
post-state is an empty buffer with no timer, and the full snapshot is what
is handed to the asynchronous send; (d) 60 clicks within one
`flushInterval` with `maxBatchSize = 50` produce exactly two flushes, one
of 50 items (immediate, restarting the window) and one of the remaining 10
at the new interval boundary. -/
theorem BT.c5_click_batch_flushing {α : Type} (cfg : BT.BatchCfg) (now d : Int)
    (rec : α) (s : BT.BatchState α) :
    (1 < cfg.maxBatchSize →
      BT.enqueueClick cfg now rec (BT.initialBatchState α) =
        ({ batch := [rec], timerDeadline := some (now + cfg.flushInterval) }, [])) ∧
    (s.timerDeadline = some d → s.batch.length + 1 < cfg.maxBatchSize →
      (BT.enqueueClick cfg now rec s).1.timerDeadline = some d ∧
      (BT.enqueueClick cfg now rec s).2 = []) ∧
    (s.batch ≠ [] →
      BT.flushClickBatch s false =
        ({ batch := [], timerDeadline := none }, [{ items := s.batch, final := false }])) ∧
    ((BT.runClicks BT.defaultBatchCfg BT.c5Clicks 2000
        (BT.initialBatchState Unit)).2.map (fun f => f.items.length) = [50, 10] ∧
      (BT.runClicks BT.defaultBatchCfg BT.c5Clicks 2000
        (BT.initialBatchState Unit)).1 = BT.initialBatchState Unit) := by
  refine ⟨?_, ?_, ?_, ?_⟩
  · intro hcap
    have h1 : ¬ ((1 : Nat) ≥ cfg.maxBatchSize) := by omega
    simp [BT.enqueueClick, BT.initialBatchState, h1]
  · intro htimer hlen
    have hcap : ¬ (cfg.maxBatchSize ≤ s.batch.length + 1) := by omega
    constructor <;> simp [BT.enqueueClick, htimer, hcap]
  · intro hne
    simp [BT.flushClickBatch, hne]
  · constructor <;> decide

/-- C5 witness: parts (a)–(c) at a concrete state — a first click at time
100 arms the timer for 1300, and flushing a two-element buffer detaches
everything. -/
theorem BT.c5_click_batch_flushing_witness :
    BT.enqueueClick BT.defaultBatchCfg 100 () (BT.initialBatchState Unit) =
      ({ batch := [()], timerDeadline := some 1300 }, []) ∧
    BT.flushClickBatch { batch := [(), ()], timerDeadline := some 1300 } false =
      ({ batch := [], timerDeadline := none },
       [{ items := [(), ()], final := false }]) := by
  have h := BT.c5_click_batch_flushing (α := Unit) BT.defaultBatchCfg 100 1300 ()
    { batch := [(), ()], timerDeadline := some 1300 }
  exact ⟨h.1 (by decide), h.2.2.1 (by decide)⟩

namespace BT

/-! ## Click batching, `unnamed/part_001` iteration
(`_enqueueClick(rec, isFrequent)` lines 283–309, `_flushClickBatch`
lines 311–318)

This iteration adds the hot ("frequent area") interval and a
`_lastFlushAt` field recording when the previous flush ran. -/

/-- `initElementClickTracking` batching options. -/
structure HotBatchCfg where
  flushInterval : Int
  maxBatchSize : Nat
  frequentFlushInterval : Int
deriving DecidableEq, Repr

/-- The source defaults: 1500 / 40 / 500. -/
def defaultHotBatchCfg : HotBatchCfg :=
  { flushInterval := 1500, maxBatchSize := 40, frequentFlushInterval := 500 }

/-- `_clickBatch`, `_clickBatchTimer` (absolute deadline) and
`_lastFlushAt`. -/
structure HotBatchState (α : Type) where
  batch : List α
  timerDeadline : Option Int
  lastFlushAt : Int
deriving DecidableEq, Repr

/-- `_flushClickBatch()` of this iteration: detach, clear the timer, stamp
`_lastFlushAt` with the current time, send. -/
def hotFlushClickBatch {α : Type} (now : Int) (s : HotBatchState α) :
    HotBatchState α × List (List α) :=
  if s.batch.isEmpty then (s, [])
  else ({ batch := [], timerDeadline := none, lastFlushAt := now }, [s.batch])

/-- `_enqueueClick(rec, isFrequent)` of this iteration: push; flush at
`maxBatchSize`; otherwise pick the hot or cold interval and — when a timer
is already pending — reschedule it only if
`now + interval < this._lastFlushAt + interval`. -/
def hotEnqueueClick {α : Type} (cfg : HotBatchCfg) (now : Int) (rec : α)
    (isFrequent : Bool) (s : HotBatchState α) : HotBatchState α × List (List α) :=
  let s1 : HotBatchState α := { s with batch := s.batch ++ [rec] }
  if s1.batch.length ≥ cfg.maxBatchSize then hotFlushClickBatch now s1
  else
    let interval := if isFrequent then cfg.frequentFlushInterval else cfg.flushInterval
    match s1.timerDeadline with
    | some _ =>
        let nextAt := s1.lastFlushAt + interval
        if now + interval < nextAt then
          ({ s1 with timerDeadline := some (now + interval) }, [])
        else (s1, [])
    | none => ({ s1 with timerDeadline := some (now + interval) }, [])

end BT

/-- C6: the hot-interval reschedule is dead code.  The guard
`now + interval < lastFlushAt + interval` is equivalent to
`now < lastFlushAt`, which never holds for a monotone clock (the previous
flush is in the past), so whenever a hot click is enqueued while the
slower-interval timer is pending (and the batch stays below the cap), the
pending deadline is left untouched and the hot traffic waits out the slow
interval — contradicting both the inline comment ("shorten the next
trigger for hot areas") and the spec.  Concretely: previous flush at 1000,
cold click at 1100 armed the timer for 2600; a hot click at 1200 should
move the flush to 1700, but the state keeps deadline 2600. -/
theorem BT.c6_hot_reschedule_dead (cfg : BT.HotBatchCfg) (now d : Int)
    (s : BT.HotBatchState Unit)
    (htimer : s.timerDeadline = some d)
    (hmono : s.lastFlushAt ≤ now)
    (hcap : s.batch.length + 1 < cfg.maxBatchSize) :
    (BT.hotEnqueueClick cfg now () true s).1.timerDeadline = some d ∧
    (BT.hotEnqueueClick cfg now () true s).2 = [] ∧
    BT.hotEnqueueClick BT.defaultHotBatchCfg 1200 () true
      { batch := [()], timerDeadline := some 2600, lastFlushAt := 1000 } =
      ({ batch := [(), ()], timerDeadline := some 2600, lastFlushAt := 1000 }, []) ∧
    (1200 + BT.defaultHotBatchCfg.frequentFlushInterval : Int) = 1700 := by
  have hnocap : ¬ (cfg.maxBatchSize ≤ s.batch.length + 1) := by omega
  have hnolt : ¬ (now + cfg.frequentFlushInterval <
      s.lastFlushAt + cfg.frequentFlushInterval) := by omega
  refine ⟨?_, ?_, by decide, by decide⟩ <;>
    simp [BT.hotEnqueueClick, htimer, hnocap, hnolt]

/-- C6 witness: the dead reschedule at the concrete state of the failing
input — deadline 2600 survives the hot click at 1200. -/
theorem BT.c6_hot_reschedule_dead_witness :
    (BT.hotEnqueueClick BT.defaultHotBatchCfg 1200 () true
      { batch := [()], timerDeadline := some 2600, lastFlushAt := 1000 }).1.timerDeadline
      = some 2600 := by
  have h := BT.c6_hot_reschedule_dead BT.defaultHotBatchCfg 1200 2600
    { batch := [()], timerDeadline := some 2600, lastFlushAt := 1000 }
    (by decide) (by decide) (by decide)
  exact h.1

namespace BT

/-! ## Click records (`_buildClickRecord`, `_isInteractive`,
`_getInteractiveContent`, `_generateCssSelector`)

Source: `behavior_tracker.js` lines 803–907.  The DOM element is modelled
by the attributes those functions read; numbers are `ℚ` (the claims do not
depend on float rounding); JS string `.length`/`.slice` are character
counts. -/

/-- JS `toLowerCase()` (ASCII case mapping, character-wise; `String.trim`
and `String.toLower` from core are avoided because their byte-position
recursion does not reduce in the kernel). -/
def jsToLower (s : String) : String := String.mk (s.data.map Char.toLower)

/-- JS `trim()`: strip whitespace from both ends. -/
def jsTrim (s : String) : String :=
  String.mk (((s.data.dropWhile Char.isWhitespace).reverse.dropWhile
    Char.isWhitespace).reverse)

/-- One element of the `parentElement` chain as `_generateCssSelector`
reads it: node name, `id` attribute (`""` = absent, which is falsy in JS),
and the number of preceding siblings with the same node name. -/
structure PathNode where
  nodeName : String
  idAttr : String
  prevSameTag : Nat
deriving DecidableEq, Repr

/-- The `while` loop of `_generateCssSelector`, innermost element first:
stop at the first node with an id (emitting `tag#id`), otherwise emit
`tag` or `tag:nth-of-type(i)` and continue upward. -/
def cssSelectorParts : List PathNode → List String
  | [] => []
  | node :: parents =>
      if node.idAttr ≠ "" then [jsToLower node.nodeName ++ "#" ++ node.idAttr]
      else
        let i := node.prevSameTag + 1
        let part := jsToLower node.nodeName ++
          (if i > 1 then ":nth-of-type(" ++ toString i ++ ")" else "")
        part :: cssSelectorParts parents

/-- `_generateCssSelector(el)`: the collected parts, outermost first
(`unshift`), joined with " > ". -/
def generateCssSelector (path : List PathNode) : String :=
  String.intercalate " > " (cssSelectorParts path).reverse

/-- The attributes of the click target that `_buildClickRecord`,
`_isInteractive` and `_getInteractiveContent` read. -/
structure DomElement where
  tagName : String
  typeAttr : String
  value : String
  textContent : String
  hasContenteditableAttr : Bool
  roleAttr : Option String
  matchesAnchorTab : Bool
  path : List PathNode
deriving DecidableEq, Repr

/-- `_isInteractive(el)`. -/
def isInteractive (el : DomElement) : Bool :=
  if ["button", "input", "select", "textarea", "label"].contains
      (jsToLower el.tagName) then true
  else if el.hasContenteditableAttr then true
  else if el.roleAttr = some "button" then true
  else if el.matchesAnchorTab then true
  else false

/-- `\s+` run-collapsing (the `replace(/\s+/g, ' ')`): every maximal run of
whitespace becomes one space. -/
def collapseWsAux : List Char → Bool → List Char
  | [], _ => []
  | c :: rest, prevWs =>
      if c.isWhitespace then
        if prevWs then collapseWsAux rest true
        else ' ' :: collapseWsAux rest true
      else c :: collapseWsAux rest false

/-- `text.replace(/\s+/g, ' ')` on a string. -/
def collapseWs (s : String) : String := String.mk (collapseWsAux s.data false)

/-- `text.slice(0, maxLen)` applied only past the length guard, exactly as
in the source. -/
def truncateTo (maxLen : Nat) (t : String) : String :=
  if t.length > maxLen then String.mk (t.data.take maxLen) else t

/-- The text `_getInteractiveContent` starts from: `value` for
input/textarea, `textContent` otherwise. -/
def sourceText (el : DomElement) : String :=
  if jsToLower el.tagName = "input" ∨ jsToLower el.tagName = "textarea" then el.value
  else el.textContent

/-- `_getInteractiveContent(el, maxLen)`: redact password/file inputs,
trim, collapse whitespace, truncate to `maxLen`, and return `null` for the
empty result (`text || null`). -/
def getInteractiveContent (el : DomElement) (maxLen : Nat) : Option String :=
  if jsToLower el.tagName = "input" ∧ (el.typeAttr = "password" ∨ el.typeAttr = "file")
    then none
  else if truncateTo maxLen (collapseWs (jsTrim (sourceText el))) = "" then none
  else some (truncateTo maxLen (collapseWs (jsTrim (sourceText el))))

/-- The `content` field of a click record: populated only for interactive
elements. -/
def clickContent (el : DomElement) (maxLen : Nat) : Option String :=
  if isInteractive el then getInteractiveContent el maxLen else none

/-- `Math.max(0, Math.min(1, v))` (the `_clamp01` helper). -/
def clamp01 (v : ℚ) : ℚ := max 0 (min 1 v)

/-- `Math.round`. -/
def jsRound (v : ℚ) : Int := Int.floor (v + 1/2)

/-- `getBoundingClientRect()` result. -/
structure Rect where
  left : ℚ
  top : ℚ
  width : ℚ
  height : ℚ
deriving DecidableEq, Repr

/-- The coordinates `_buildClickRecord` reads off the mouse event. -/
structure ClickEvtInfo where
  clientX : ℚ
  clientY : ℚ
deriving DecidableEq, Repr

/-- The window metrics `_buildClickRecord` reads. -/
structure WindowInfo where
  innerWidth : ℚ
  innerHeight : ℚ
  devicePixelRatio : ℚ
  scrollX : ℚ
  scrollY : ℚ
deriving DecidableEq, Repr

/-- The normalized record `_buildClickRecord` returns. -/
structure ClickRecord where
  t : String
  tag : String
  selector : String
  interactive : Bool
  x_norm : ℚ
  y_norm : ℚ
  vp_x_norm : ℚ
  vp_y_norm : ℚ
  rectW : Int
  rectH : Int
  content : Option String
  content_len : Nat
deriving DecidableEq, Repr

/-- `_buildClickRecord(target, e, maxLen)`.  `rect?.width || 1` maps a
missing or zero extent to 1; `window.innerWidth || 1` likewise. -/
def buildClickRecord (el : DomElement) (evt : ClickEvtInfo) (rect : Option Rect)
    (win : WindowInfo) (nowIso : String) (maxLen : Nat) : ClickRecord :=
  let w : ℚ := match rect with | some r => if r.width = 0 then 1 else r.width | none => 1
  let h : ℚ := match rect with | some r => if r.height = 0 then 1 else r.height | none => 1
  let left : ℚ := match rect with | some r => r.left | none => 0
  let top : ℚ := match rect with | some r => r.top | none => 0
  let vpW : ℚ := if win.innerWidth = 0 then 1 else win.innerWidth
  let vpH : ℚ := if win.innerHeight = 0 then 1 else win.innerHeight
  let content := clickContent el maxLen
  { t := nowIso
    tag := jsToLower el.tagName
    selector := generateCssSelector el.path
    interactive := isInteractive el
    x_norm := clamp01 ((evt.clientX - left) / w)
    y_norm := clamp01 ((evt.clientY - top) / h)
    vp_x_norm := clamp01 (evt.clientX / vpW)
    vp_y_norm := clamp01 (evt.clientY / vpH)
    rectW := jsRound w
    rectH := jsRound h
    content := content
    content_len := match content with | some s => s.length | none => 0 }

/-- Truncation really bounds the length by `maxLen`. -/
theorem truncateTo_length_le (maxLen : Nat) (t : String) :
    (truncateTo maxLen t).length ≤ maxLen := by
  unfold truncateTo
  split
  · show (t.data.take maxLen).length ≤ maxLen
    rw [List.length_take]
    omega
  · omega

/-- Whatever `_getInteractiveContent` returns is at most `maxLen` long. -/
theorem getInteractiveContent_length_le (el : DomElement) (maxLen : Nat)
    (s : String) (h : getInteractiveContent el maxLen = some s) :
    s.length ≤ maxLen := by
  unfold getInteractiveContent at h
  split at h
  · simp at h
  · split at h
    · simp at h
    · cases h
      exact truncateTo_length_le maxLen _

end BT

/-- C8: for every click record built by `_buildClickRecord`: `content` is
populated only when the target is interactive; a click on a password or
file input always yields `content = null`; any captured text is truncated
to at most `includeTextMaxLen` characters; and `content_len` equals the
length of the stored content (0 when null). -/
theorem BT.c8_click_record_content (el : BT.DomElement) (evt : BT.ClickEvtInfo)
    (rect : Option BT.Rect) (win : BT.WindowInfo) (nowIso : String) (maxLen : Nat) :
    ((BT.buildClickRecord el evt rect win nowIso maxLen).interactive = false →
      (BT.buildClickRecord el evt rect win nowIso maxLen).content = none) ∧
    (BT.jsToLower el.tagName = "input" →
      (el.typeAttr = "password" ∨ el.typeAttr = "file") →
      (BT.buildClickRecord el evt rect win nowIso maxLen).content = none) ∧
    (∀ s, (BT.buildClickRecord el evt rect win nowIso maxLen).content = some s →
      s.length ≤ maxLen) ∧
    (BT.buildClickRecord el evt rect win nowIso maxLen).content_len =
      (match (BT.buildClickRecord el evt rect win nowIso maxLen).content with
       | some s => s.length
       | none => 0) := by
  have hcontent : (BT.buildClickRecord el evt rect win nowIso maxLen).content =
      BT.clickContent el maxLen := rfl
  have hinter : (BT.buildClickRecord el evt rect win nowIso maxLen).interactive =
      BT.isInteractive el := rfl
  refine ⟨?_, ?_, ?_, rfl⟩
  · intro hni
    rw [hcontent]
    unfold BT.clickContent
    rw [hinter] at hni
    simp [hni]
  · intro htag htype
    rw [hcontent]
    unfold BT.clickContent
    split
    · unfold BT.getInteractiveContent
      rw [if_pos ⟨htag, htype⟩]
    · rfl
  · intro s hs
    rw [hcontent] at hs
    unfold BT.clickContent at hs
    split at hs
    · exact BT.getInteractiveContent_length_le el maxLen s hs
    · simp at hs

/-- C8 witness: the theorem applied to a concrete password input — its
content is redacted even though a password input is interactive. -/
theorem BT.c8_click_record_content_witness :
    (BT.buildClickRecord
      { tagName := "INPUT", typeAttr := "password", value := "hunter2"
        textContent := "", hasContenteditableAttr := false, roleAttr := none
        matchesAnchorTab := false, path := [⟨"INPUT", "pw", 0⟩] }
      ⟨10, 20⟩ (some ⟨0, 0, 100, 30⟩) ⟨800, 600, 1, 0, 0⟩
      "2026-01-01T00:00:00Z" 120).content = none := by
  have h := BT.c8_click_record_content
    { tagName := "INPUT", typeAttr := "password", value := "hunter2"
      textContent := "", hasContenteditableAttr := false, roleAttr := none
      matchesAnchorTab := false, path := [⟨"INPUT", "pw", 0⟩] }
    ⟨10, 20⟩ (some ⟨0, 0, 100, 30⟩) ⟨800, 600, 1, 0, 0⟩
    "2026-01-01T00:00:00Z" 120
  exact h.2.1 (by decide) (by decide)

namespace BT

/-! ## Idle tracking and the idle hint
(`initIdleAndFocus` lines 619–724, `_maybeShowIdleHint` lines 731–769 of
`behavior_tracker.js`)

The two `setTimeout`s (`idleTimer` and `_idleHintTimer`) are absolute
deadlines; a timer callback runs at its deadline.  `Date.now()` readings
are the explicit time parameters. -/

/-- `idleThreshold` plus `idleHintConfig` (without the mutable
`lastHintTs`, which lives in the state). -/
structure IdleCfg where
  idleMs : Int
  delayAfterIdleMs : Option Int
  hintAfterMs : Option Int
  cooldownMs : Int
  messages : List String
deriving DecidableEq, Repr

/-- The rotated message list from the constructor's `idleHintConfig`. -/
def idleDefaultMessages : List String :=
  [ "已经有一会儿没有操作了，需要我给点思路吗？请告诉我你的疑惑"
  , "卡住了吗？要不要我给几个提示。请告诉你的问题吧"
  , "来问问我给你些指导，帮你重新进入状态？"
  , "看你有一会儿没操作了，遇到困难可以问问我哦"
  , "是有什么不理解的地方吗，告诉我问题，ai助教来助阵！" ]

/-- The constructor defaults: threshold 4000 ms, `hintAfterMs` 3000 ms
(old total-time semantics), cooldown 18000 ms. -/
def defaultIdleCfg : IdleCfg :=
  { idleMs := 4000
    delayAfterIdleMs := none
    hintAfterMs := some 3000
    cooldownMs := 18000
    messages := idleDefaultMessages }

/-- `computeHintDelay()`: prefer `delayAfterIdleMs`; otherwise treat
`hintAfterMs` (defaulting to `idleMs`) as total time since last activity
and wait the non-negative remainder after idle onset. -/
def computeHintDelay (cfg : IdleCfg) : Int :=
  match cfg.delayAfterIdleMs with
  | some d => max 0 d
  | none =>
      let total := match cfg.hintAfterMs with
        | some t => t
        | none => cfg.idleMs
      max 0 (total - cfg.idleMs)

/-- The idle/hint mutable state: `_lastActivityTs`, `_idleStartTs`, the two
timers as absolute deadlines, `_idleMsgIdx` and
`idleHintConfig.lastHintTs`. -/
structure IdleState where
  lastActivityTs : Int
  idleStartTs : Option Int
  idleDeadline : Option Int
  hintDeadline : Option Int
  idleMsgIdx : Nat
  lastHintTs : Int
deriving DecidableEq, Repr

/-- The constructor's state at page load time `now`. -/
def initIdleState (now : Int) : IdleState :=
  { lastActivityTs := now
    idleStartTs := none
    idleDeadline := none
    hintDeadline := none
    idleMsgIdx := 0
    lastHintTs := 0 }

/-- What the idle machinery emits: `user_idle` envelopes (with the true
start/end interval), the hint DOM notification, and the
`idle_hint_displayed` telemetry event. -/
inductive IdleOut where
  | userIdle : (durationMs : Int) → (startTs : Int) → (endTs : Int) →
      (wasFocused : Bool) → (src : String) → IdleOut
  | hintDom : (message : String) → IdleOut
  | idleHintDisplayed : (message : String) → (idleSoFarMs : Int) → IdleOut
deriving DecidableEq, Repr

/-- `scheduleIdleAndHint()`: clear both timers, stamp the last activity
time, and arm the idle timer `idleMs` from now. -/
def scheduleIdleAndHint (cfg : IdleCfg) (now : Int) (s : IdleState) : IdleState :=
  { s with
      lastActivityTs := now
      idleDeadline := some (now + cfg.idleMs)
      hintDeadline := none }

/-- The idle timer's callback, running at its deadline `now`: open the idle
session at the last activity time (if not already open) and only now arm
the hint timer. -/
def fireIdleTimer (cfg : IdleCfg) (now : Int) (s : IdleState) : IdleState :=
  { s with
      idleDeadline := none
      idleStartTs := match s.idleStartTs with
        | none => some s.lastActivityTs
        | some v => some v
      hintDeadline := some (now + computeHintDelay cfg) }

/-- `_maybeShowIdleHint()`: cooldown gate, message rotation, one DOM hint
plus one `idle_hint_displayed` event. -/
def maybeShowIdleHint (cfg : IdleCfg) (now : Int) (s : IdleState) :
    IdleState × List IdleOut :=
  if now - s.lastHintTs < cfg.cooldownMs then (s, [])
  else if cfg.messages.isEmpty then (s, [])
  else
    let idx := s.idleMsgIdx % cfg.messages.length
    let message := cfg.messages.getD idx ""
    let a := match s.idleStartTs with | some v => v | none => s.lastActivityTs
    let idleStart := if a = 0 then now else a
    let idleSoFar := max 0 (now - idleStart)
    ({ s with idleMsgIdx := idx + 1, lastHintTs := now },
     [.hintDom message, .idleHintDisplayed message idleSoFar])

/-- The hint timer's callback, running at its deadline `now`: hint only
when still idle. -/
def fireHintTimer (cfg : IdleCfg) (now : Int) (s : IdleState) :
    IdleState × List IdleOut :=
  let s1 := { s with hintDeadline := none }
  match s1.idleStartTs with
  | some _ => maybeShowIdleHint cfg now s1
  | none => (s1, [])

/-- `onActivity(src)`: close an open idle session into one `user_idle`
event with the true interval, then reset all timing from now. -/
def onActivity (cfg : IdleCfg) (now : Int) (src : String) (focused : Bool)
    (s : IdleState) : IdleState × List IdleOut :=
  let closed :=
    match s.idleStartTs with
    | some st =>
        ({ s with idleStartTs := none },
         [IdleOut.userIdle (now - st) st now focused src])
    | none => (s, [])
  (scheduleIdleAndHint cfg now closed.1, closed.2)

/-- The `pagehide` listener: a final closing `user_idle` for an open
session (timers are left alone). -/
def onPageHide (now : Int) (focused : Bool) (s : IdleState) :
    IdleState × List IdleOut :=
  match s.idleStartTs with
  | some st =>
      ({ s with idleStartTs := none },
       [IdleOut.userIdle (now - st) st now focused "pagehide"])
  | none => (s, [])

/-- Fire the timers whose deadlines lie at or before `upTo`, each at its
own deadline (the idle timer first — only it can arm the hint timer, and
the two are never pending together in reachable states). -/
def advanceTimers (cfg : IdleCfg) (upTo : Int) (s : IdleState) :
    IdleState × List IdleOut :=
  let s1 := match s.idleDeadline with
    | some d => if d ≤ upTo then fireIdleTimer cfg d s else s
    | none => s
  match s1.hintDeadline with
  | some d => if d ≤ upTo then fireHintTimer cfg d s1 else (s1, [])
  | none => (s1, [])

/-- An external event on the activity stream. -/
inductive IdleEvt where
  | activity : (t : Int) → (src : String) → (focused : Bool) → IdleEvt
  | pagehide : (t : Int) → (focused : Bool) → IdleEvt
deriving DecidableEq, Repr

/-- The time at which an external event occurs. -/
def IdleEvt.time : IdleEvt → Int
  | .activity t _ _ => t
  | .pagehide t _ => t

/-- Drive a time-ordered event stream through the idle machinery, firing
due timers before each event and once more up to `endTime`. -/
def runIdle (cfg : IdleCfg) : List IdleEvt → Int → IdleState →
    IdleState × List IdleOut
  | [], endTime, s => advanceTimers cfg endTime s
  | e :: rest, endTime, s =>
      let adv := advanceTimers cfg e.time s
      let step :=
        match e with
        | .activity t src focused => onActivity cfg t src focused adv.1
        | .pagehide t focused => onPageHide t focused adv.1
      let more := runIdle cfg rest endTime step.1
      (more.1, adv.2 ++ step.2 ++ more.2)

/-- The configuration of the C9 hint scenario: new-semantics hint delay of
3000 ms after idle onset. -/
def c9Cfg : IdleCfg :=
  { idleMs := 4000
    delayAfterIdleMs := some 3000
    hintAfterMs := some 3000
    cooldownMs := 18000
    messages := idleDefaultMessages }

/-- The state right after `initIdleAndFocus` ran at time 100000 (its final
`scheduleIdleAndHint()` call). -/
def c9Start : IdleState := scheduleIdleAndHint c9Cfg 100000 (initIdleState 100000)

end BT

/-- C9 idle lifecycle: (i) an activity signal arriving while an idle
session is open closes it and emits exactly one `user_idle` event carrying
the true start/end interval, then reschedules the idle timer; (ii) an
activity signal with no open session emits nothing; (iii) page-hide while
idle likewise emits exactly one closing `user_idle`; (iv) concretely, with
no activity for `idleMs = 4000` and then none for the 3000 ms hint delay
after idle onset, cooldown elapsed, exactly one hint notification and one
`idle_hint_displayed` event (carrying the 7000 ms idled so far) are
emitted; (v) concretely, activity resuming 2000 ms in — before
`idleThresholdMs` elapses — yields zero `user_idle` events for that
window. -/
theorem BT.c9_idle_lifecycle (cfg : BT.IdleCfg) (now st : Int) (src : String)
    (focused : Bool) (s : BT.IdleState) :
    (s.idleStartTs = some st →
      (BT.onActivity cfg now src focused s).2 =
        [.userIdle (now - st) st now focused src] ∧
      (BT.onActivity cfg now src focused s).1.idleStartTs = none ∧
      (BT.onActivity cfg now src focused s).1.idleDeadline = some (now + cfg.idleMs)) ∧
    (s.idleStartTs = none → (BT.onActivity cfg now src focused s).2 = []) ∧
    (s.idleStartTs = some st →
      BT.onPageHide now focused s =
        ({ s with idleStartTs := none },
         [.userIdle (now - st) st now focused "pagehide"])) ∧
    (BT.runIdle BT.c9Cfg [] 110000 BT.c9Start).2 =
      [.hintDom (BT.idleDefaultMessages.getD 0 ""),
       .idleHintDisplayed (BT.idleDefaultMessages.getD 0 "") 7000] ∧
    (BT.runIdle BT.c9Cfg [.activity 102000 "keydown" true] 103900 BT.c9Start).2 = [] := by
  refine ⟨?_, ?_, ?_, by decide, by decide⟩
  · intro hopen
    refine ⟨?_, ?_, ?_⟩ <;>
      simp [BT.onActivity, BT.scheduleIdleAndHint, hopen]
  · intro hclosed
    simp [BT.onActivity, hclosed]
  · intro hopen
    simp [BT.onPageHide, hopen]

/-- C9 witness: closing a concrete idle session open since 100000 by
activity at 106000 emits one `user_idle` of duration 6000. -/
theorem BT.c9_idle_lifecycle_witness :
    (BT.onActivity BT.c9Cfg 106000 "mousemove" true
      { BT.c9Start with idleStartTs := some 100000 }).2 =
      [.userIdle 6000 100000 106000 true "mousemove"] := by
  have h := BT.c9_idle_lifecycle BT.c9Cfg 106000 100000 "mousemove" true
    { BT.c9Start with idleStartTs := some 100000 }
  exact (h.1 rfl).1
